import Mathlib

/-!
Shallow embedding of the deterministic control logic of the
resume-generator repository: the ATS weighted-score aggregation and the
decision thresholds of `src/resume_generator/graphs/ats_scanner_graph.py`,
the rule-based feedback synthesizer of
`src/resume_generator/graphs/ats_scanner.py`, and the resume section
parser and quality-gated revision loop of
`src/resume_generator/graphs/resume_generator_graph.py`.
Python float decimal literals (the fixed weight table) are modelled
exactly as rationals, and Python `int(...)` conversion is modelled by
`pyInt` (truncation toward zero).
-/

/-- Python `int(q)` conversion of a numeric value to an integer:
truncation toward zero. -/
def pyInt (q : ℚ) : ℤ := if 0 ≤ q then ⌊q⌋ else ⌈q⌉

/-- Weight of the keyword aspect, from the `weights` dict in
`_calculate_score` (`ats_scanner_graph.py`). -/
def weights_keywords : ℚ := 0.25

/-- Weight of the skills aspect. -/
def weights_skills : ℚ := 0.30

/-- Weight of the experience aspect. -/
def weights_experience : ℚ := 0.25

/-- Weight of the education aspect. -/
def weights_education : ℚ := 0.10

/-- Weight of the format aspect. -/
def weights_format : ℚ := 0.10

/-- The pre-blended skills sub-score:
`int(required_score * 0.8 + preferred_score * 0.2)`
(`_calculate_score`, `ats_scanner_graph.py`, line 162). -/
def skills_blend (required_score preferred_score : ℤ) : ℤ :=
  pyInt ((required_score : ℚ) * 0.8 + (preferred_score : ℚ) * 0.2)

/-- The overall weighted score from the five aspect scores:
`int(keyword*0.25 + skills*0.30 + experience*0.25 + education*0.10 +
format*0.10)` (`_calculate_score`, `ats_scanner_graph.py`, lines 166-172). -/
def overall_of (keyword_score skills_score experience_score education_score format_score : ℤ) : ℤ :=
  pyInt ((keyword_score : ℚ) * weights_keywords +
         (skills_score : ℚ) * weights_skills +
         (experience_score : ℚ) * weights_experience +
         (education_score : ℚ) * weights_education +
         (format_score : ℚ) * weights_format)

/-- The decision thresholds of `_make_decision`
(`ats_scanner_graph.py`, lines 193-199). -/
def make_decision (overall_score : ℤ) : String :=
  if overall_score ≥ 75 then "pass"
  else if overall_score ≥ 50 then "review"
  else "reject"

/-- Rank of a decision under the order REJECT < REVIEW < PASS. -/
def decisionRank (d : String) : ℕ :=
  if d = "pass" then 2 else if d = "review" then 1 else 0

/-- The `ATSFormatAnalysis` record of `states/ats_scanner_states.py`. -/
structure ATSFormatAnalysis where
  format_score : ℤ
  analysis : String
deriving DecidableEq

/-- The `ATSKeywordAnalysis` record of `states/ats_scanner_states.py`. -/
structure ATSKeywordAnalysis where
  job_keywords : List String
  resume_keywords : List String
  match_score : ℤ
deriving DecidableEq

/-- The `ATSSkillAnalysis` record of `states/ats_scanner_states.py`. -/
structure ATSSkillAnalysis where
  required_skills : List String
  preferred_skills : List String
  candidate_skills : List String
  required_score : ℤ
  preferred_score : ℤ
deriving DecidableEq

/-- The `ATSExperienceAnalysis` record of `states/ats_scanner_states.py`. -/
structure ATSExperienceAnalysis where
  experience_quality : String
  experience_score : ℤ
  analysis : String
deriving DecidableEq

/-- The `ATSEducationAnalysis` record of `states/ats_scanner_states.py`. -/
structure ATSEducationAnalysis where
  candidate_level : ℤ
  required_level : ℤ
  education_score : ℤ
  meets_requirement : Bool
deriving DecidableEq

/-- The `ATSScore` record of `states/ats_scanner_states.py`. -/
structure ATSScore where
  format_score : ℤ
  keyword_score : ℤ
  skills_score : ℤ
  experience_score : ℤ
  education_score : ℤ
  overall_score : ℤ
deriving DecidableEq

/-- Failure of the score aggregation: a required analysis is absent
from the pipeline state, so the Python dict access
`state["..."]` raises (KeyError naming the missing aspect key; the
spec's error taxonomy calls this `MissingAspectError`). -/
inductive AggError where
  | missingAspect (key : String)
deriving DecidableEq

/-- The five fan-in slots of `ATSState` read by `_calculate_score`;
`none` models a key never produced by its upstream step. -/
structure ATSStateIn where
  format_analysis : Option ATSFormatAnalysis
  keyword_analysis : Option ATSKeywordAnalysis
  skills_analysis : Option ATSSkillAnalysis
  experience_analysis : Option ATSExperienceAnalysis
  education_analysis : Option ATSEducationAnalysis

/-- `_calculate_score` (`ats_scanner_graph.py`, lines 143-186): the five
state keys are read in order; the first absent one aborts the step
(Python raises on the dict access), otherwise the weighted `ATSScore`
record is produced. -/
def calculate_score (s : ATSStateIn) : Except AggError ATSScore :=
  match s.format_analysis with
  | none => Except.error (AggError.missingAspect ("format_analysis"))
  | some format_analysis =>
    match s.keyword_analysis with
    | none => Except.error (AggError.missingAspect ("keyword_analysis"))
    | some keyword_analysis =>
      match s.skills_analysis with
      | none => Except.error (AggError.missingAspect ("skills_analysis"))
      | some skills_analysis =>
        match s.experience_analysis with
        | none => Except.error (AggError.missingAspect ("experience_analysis"))
        | some experience_analysis =>
          match s.education_analysis with
          | none => Except.error (AggError.missingAspect ("education_analysis"))
          | some education_analysis =>
            let format_score := format_analysis.format_score
            let keyword_score := keyword_analysis.match_score
            let skills_score :=
              skills_blend skills_analysis.required_score skills_analysis.preferred_score
            let experience_score := experience_analysis.experience_score
            let education_score := education_analysis.education_score
            let overall_score :=
              overall_of keyword_score skills_score experience_score education_score format_score
            Except.ok ⟨format_score, keyword_score, skills_score,
                       experience_score, education_score, overall_score⟩

/-- Python `', '.join(xs)`. -/
def joinComma : List String → String
  | [] => ""
  | [x] => x
  | x :: rest => x ++ ", " ++ joinComma rest

/-- Keyword-analysis fields read by `_generate_feedback`
(`ats_scanner.py`, lines 216-218 and 238). -/
structure FBKeywordAnalysis where
  match_score : ℤ
  missed_keywords : List String
deriving DecidableEq

/-- Skills-analysis fields read by `_generate_feedback`
(`ats_scanner.py`, lines 221-223 and 241). -/
structure FBSkillAnalysis where
  missing_required : List String
  required_score : ℤ
deriving DecidableEq

/-- Experience-analysis fields read by `_generate_feedback`
(`ats_scanner.py`, lines 226-227). -/
structure FBExperienceAnalysis where
  meets_requirement : Bool
  estimated_years : ℤ
  required_years : ℤ
deriving DecidableEq

/-- Education-analysis fields read by `_generate_feedback`
(`ats_scanner.py`, lines 230-231). -/
structure FBEducationAnalysis where
  meets_requirement : Bool
  required_education : String
deriving DecidableEq

/-- Format-analysis fields read by `_generate_feedback`
(`ats_scanner.py`, lines 234-235). -/
structure FBFormatAnalysis where
  format_issues : List String
deriving DecidableEq

/-- The missing-keywords feedback entry (`ats_scanner.py`, lines 217-218). -/
def keywordFeedbackMsg (kw : FBKeywordAnalysis) : String :=
  "Missing important keywords: " ++ joinComma (kw.missed_keywords.take 3)

/-- The missing-required-skills feedback entry (lines 222-223). -/
def skillsFeedbackMsg (sk : FBSkillAnalysis) : String :=
  "Missing required skills: " ++ joinComma (sk.missing_required.take 3)

/-- The insufficient-experience feedback entry (line 227). -/
def experienceFeedbackMsg (ex : FBExperienceAnalysis) : String :=
  "Insufficient experience: " ++ toString ex.estimated_years ++
    " years vs " ++ toString ex.required_years ++ " required"

/-- The education-requirement feedback entry (line 231). -/
def educationFeedbackMsg (ed : FBEducationAnalysis) : String :=
  "Education requirement not met: " ++ ed.required_education ++ " required"

/-- One format-issue feedback entry (line 235). -/
def formatFeedbackMsg (issue : String) : String :=
  "Format issue: " ++ issue

/-- `_generate_feedback` (`ats_scanner.py`, lines 205-244): the
deterministic rule table, appending entries in source order. -/
def generate_feedback (kw : FBKeywordAnalysis) (sk : FBSkillAnalysis)
    (ex : FBExperienceAnalysis) (ed : FBEducationAnalysis)
    (fm : FBFormatAnalysis) : List String :=
  (if kw.match_score < 70 then [keywordFeedbackMsg kw] else []) ++
  (if sk.missing_required.isEmpty then [] else [skillsFeedbackMsg sk]) ++
  (if ex.meets_requirement then [] else [experienceFeedbackMsg ex]) ++
  (if ed.meets_requirement then [] else [educationFeedbackMsg ed]) ++
  ((fm.format_issues.take 2).map formatFeedbackMsg) ++
  (if kw.match_score ≥ 80 then ["Strong keyword optimization"] else []) ++
  (if sk.required_score ≥ 80 then ["Excellent skills match"] else [])

/-- Boolean check that `needle` occurs at the start of `hay`. -/
def leadsWith : List Char → List Char → Bool
  | [], _ => true
  | _ :: _, [] => false
  | a :: as, b :: bs => a == b && leadsWith as bs

/-- Boolean check that `needle` occurs as a contiguous run inside `hay`
(Python `needle in hay` on strings). -/
def containsSub (needle : List Char) : List Char → Bool
  | [] => leadsWith needle []
  | c :: rest => leadsWith needle (c :: rest) || containsSub needle rest

/-- Python `str.strip()` on the character list of a line. -/
def trimChars (l : List Char) : List Char :=
  (((l.dropWhile Char.isWhitespace).reverse).dropWhile Char.isWhitespace).reverse

/-- Python `line.strip()`. -/
def trimStr (s : String) : String := String.mk (trimChars s.data)

/-- Python `str.upper()` (per-character uppercasing). -/
def upperStr (s : String) : String := String.mk (s.data.map Char.toUpper)

/-- The fixed `section_headers` lexicon of `_parse_resume_sections`
(`resume_generator_graph.py`, lines 296-301). -/
def section_headers : List String :=
  ["PROFESSIONAL SUMMARY", "SUMMARY", "OBJECTIVE",
   "EXPERIENCE", "PROFESSIONAL EXPERIENCE", "WORK EXPERIENCE",
   "EDUCATION", "SKILLS", "TECHNICAL SKILLS", "CORE SKILLS",
   "CERTIFICATIONS", "PROJECTS", "ACHIEVEMENTS", "PUBLICATIONS"]

/-- `is_header = any(header in line.strip().upper() for header in
section_headers)` (lines 305-308). -/
def is_header_line (line : String) : Bool :=
  section_headers.any (fun header => containsSub header.data (upperStr (trimStr line)).data)

/-- The `ResumeSection` record of `states/resume_generator_states.py`. -/
structure ResumeSection where
  section_name : String
  content : String
  keywords_used : List String
deriving DecidableEq

/-- Python `'\n'.join(xs)`. -/
def joinNl : List String → String
  | [] => ""
  | [x] => x
  | x :: rest => x ++ "\n" ++ joinNl rest

/-- The line loop of `_parse_resume_sections` (lines 303-331), carrying
`current_section` and `current_content`; at the end of the lines the
last section is flushed only when its content is non-empty (lines
326-331). -/
def parseLoop : Option String → List String → List String → List ResumeSection
  | current_section, current_content, [] =>
    match current_section with
    | some s =>
        if current_content.isEmpty then []
        else [⟨s, joinNl current_content, []⟩]
    | none => []
  | current_section, current_content, line :: rest =>
    if is_header_line line then
      match current_section with
      | some s =>
          ⟨s, joinNl current_content, []⟩ :: parseLoop (some (trimStr line)) [] rest
      | none => parseLoop (some (trimStr line)) [] rest
    else
      match current_section with
      | some s => parseLoop (some s) (current_content ++ [line]) rest
      | none => parseLoop none current_content rest

/-- Python `text.split('\n')`. -/
def splitOnNl : List Char → List (List Char)
  | [] => [[]]
  | c :: cs =>
    if c = '\n' then [] :: splitOnNl cs
    else
      match splitOnNl cs with
      | [] => [[c]]
      | l :: ls => (c :: l) :: ls

/-- The lines of the resume text (`resume_text.split('\n')`, line 303). -/
def linesOf (text : String) : List String := (splitOnNl text.data).map String.mk

/-- `_parse_resume_sections` (`resume_generator_graph.py`, lines 289-333). -/
def parse_resume_sections (resume_text : String) : List ResumeSection :=
  parseLoop none [] (linesOf resume_text)

/-- The `ResumeEvaluation` record of `states/resume_generator_states.py`. -/
structure ResumeEvaluation where
  keyword_coverage : ℤ
  ats_friendliness : ℤ
  clarity_score : ℤ
  achievement_focus : ℤ
  overall_quality : ℤ
  improvement_suggestions : List String
deriving DecidableEq

/-- The state keys read by `_check_quality` (`resume_generator_graph.py`,
lines 244-247); `none` models an absent key, read with `state.get` and
its default. -/
structure RGControlState where
  resume_evaluation : Option ResumeEvaluation
  iteration_count : Option ℕ
  max_iterations : Option ℕ
  quality_threshold : Option ℤ

/-- `_check_quality` (`resume_generator_graph.py`, lines 242-261):
computes the `should_continue` flag. -/
def check_quality (s : RGControlState) : Bool :=
  let iteration_count := s.iteration_count.getD 0
  let max_iterations := s.max_iterations.getD 3
  let quality_threshold := s.quality_threshold.getD 80
  match s.resume_evaluation with
  | some evaluation =>
      decide (evaluation.overall_quality < quality_threshold) &&
      decide (iteration_count < max_iterations)
  | none => decide (iteration_count < max_iterations)

/-- `_should_continue` (lines 263-266): maps the stored flag (absent key
defaults to false) to the conditional-edge label. -/
def should_continue_label (should_continue : Option Bool) : String :=
  if should_continue.getD false then "continue" else "finish"

/-- The conditional-edge mapping of `build_graph` (lines 69-76):
"continue" routes to the `generate_feedback` node, "finish" to
`format_final`. -/
def route_target (label : String) : Option String :=
  if label = "continue" then some ("generate_feedback")
  else if label = "finish" then some ("format_final")
  else none

/-- The control states of the revision loop (spec section 4.4: Drafting,
Evaluating, Deciding, Revising, Finalizing, Done), matching the nodes
`generate_resume`, `evaluate_resume`, `check_quality` plus conditional
edge, `generate_feedback`/`revise_resume`, and `format_final`. -/
inductive Phase where
  | drafting
  | evaluating
  | deciding
  | revising
  | finalizing
  | done
deriving DecidableEq

/-- A revision-loop state: current phase, the `iteration_count` state
key, the last stored `resume_evaluation`, and instrumentation counters
for completed evaluation passes (`evals`) and revision passes (`revs`). -/
structure LoopState where
  phase : Phase
  iteration_count : ℕ
  resume_evaluation : Option ResumeEvaluation
  evals : ℕ
  revs : ℕ
deriving DecidableEq

/-- Next phase chosen by the conditional edge from the label computed by
`_should_continue`. -/
def decide_next_phase (sc : Bool) : Phase :=
  match route_target (should_continue_label (some sc)) with
  | some l => if l = "generate_feedback" then Phase.revising else Phase.finalizing
  | none => Phase.finalizing

/-- One transition of the revision loop, for an arbitrary sequence
`quals` of evaluation results (the n-th evaluation pass stores
`quals n`): `generate_resume` and `revise_resume` increment
`iteration_count` by one (lines 183-187 and 237-240), `evaluate_resume`
stores a fresh evaluation, and `check_quality` plus the conditional
edge decide between revising and finalizing. -/
def loopStep (quals : ℕ → ResumeEvaluation) (maxIter : ℕ) (qThresh : ℤ)
    (s : LoopState) : LoopState :=
  match s.phase with
  | Phase.drafting =>
      { s with phase := Phase.evaluating, iteration_count := s.iteration_count + 1 }
  | Phase.evaluating =>
      { s with phase := Phase.deciding,
               resume_evaluation := some (quals s.evals), evals := s.evals + 1 }
  | Phase.deciding =>
      let sc := check_quality
        ⟨s.resume_evaluation, some s.iteration_count, some maxIter, some qThresh⟩
      { s with phase := decide_next_phase sc }
  | Phase.revising =>
      { s with phase := Phase.evaluating,
               iteration_count := s.iteration_count + 1, revs := s.revs + 1 }
  | Phase.finalizing => { s with phase := Phase.done }
  | Phase.done => s

/-- Initial revision-loop state: `Drafting` with `iteration_count = 0`. -/
def initLoopState : LoopState := ⟨Phase.drafting, 0, none, 0, 0⟩

/-- Claim C4: the decision thresholder is monotone for the order
REJECT < REVIEW < PASS, with closed-open boundaries at 50 and 75:
decision 75 = pass, decision 74 = review, decision 50 = review,
decision 49 = reject. -/
theorem decision_monotone_thresholds (s t : ℤ) (h : s ≤ t) :
    decisionRank (make_decision s) ≤ decisionRank (make_decision t) ∧
    make_decision 75 = "pass" ∧
    make_decision 74 = "review" ∧
    make_decision 50 = "review" ∧
    make_decision 49 = "reject" := by
  refine ⟨?_, by decide, by decide, by decide, by decide⟩
  unfold make_decision
  split_ifs <;> first
    | decide
    | omega

/-- Witness for C4 at the concrete pair (50, 75). -/
theorem decision_monotone_thresholds_witness :
    (50 : ℤ) ≤ 75 ∧
    decisionRank (make_decision 50) ≤ decisionRank (make_decision 75) :=
  ⟨by decide, (decision_monotone_thresholds 50 75 (by decide)).1⟩

/-- Counterexample for C9: on the out-of-range overall score 150 the
decision thresholder produces the decision "pass" (and on -5 it
produces "reject") instead of rejecting the input with an error; no
error path exists in `_make_decision`. -/
theorem decision_out_of_range_counterexample :
    make_decision 150 = "pass" ∧ make_decision (-5) = "reject" := by
  decide

/-- Claim C9 (amended): the decision thresholder performs no range
validation: for every integer overall score, inside or outside
[0,100], it totally produces a decision by the fixed thresholds
(≥ 75 pass, ≥ 50 review, otherwise reject) and raises no error. -/
theorem decision_total_no_range_check (overall : ℤ) :
    (75 ≤ overall → make_decision overall = "pass") ∧
    (50 ≤ overall → overall < 75 → make_decision overall = "review") ∧
    (overall < 50 → make_decision overall = "reject") := by
  unfold make_decision
  refine ⟨fun h => ?_, fun h1 h2 => ?_, fun h => ?_⟩ <;> split_ifs <;> first
    | rfl
    | omega

/-- Witness for C9 (amended) at the out-of-range score 150. -/
theorem decision_total_no_range_check_witness :
    (75 : ℤ) ≤ 150 ∧ make_decision 150 = "pass" :=
  ⟨by decide, (decision_total_no_range_check 150).1 (by decide)⟩

/-- Counterexample for C5: at required_score = 1, preferred_score = 0
the code computes `int(1*0.8 + 0*0.2) = 0` (truncation), while the
claim's rounding of the blend 0.8 gives 1. -/
theorem skills_blend_round_counterexample :
    skills_blend 1 0 = 0 ∧
    round ((1 : ℚ) * 0.8 + (0 : ℚ) * 0.2) = 1 ∧
    skills_blend 1 0 ≠ round ((1 : ℚ) * 0.8 + (0 : ℚ) * 0.2) := by
  have hb : skills_blend 1 0 = 0 := by
    unfold skills_blend pyInt
    rw [if_pos (by norm_num)]
    have e45 : ((1 : ℤ) : ℚ) * 0.8 + ((0 : ℤ) : ℚ) * 0.2 = 4 / 5 := by norm_num
    rw [e45, Int.floor_eq_iff]
    constructor <;> norm_num
  have hr : round ((1 : ℚ) * 0.8 + (0 : ℚ) * 0.2) = 1 := by
    have e45 : (1 : ℚ) * 0.8 + (0 : ℚ) * 0.2 = 4 / 5 := by norm_num
    rw [e45, round_eq]
    have e13 : (4 / 5 : ℚ) + 1 / 2 = 13 / 10 := by norm_num
    rw [e13, Int.floor_eq_iff]
    constructor <;> norm_num
  refine ⟨hb, hr, ?_⟩
  rw [hb, hr]
  decide

/-- Claim C5 (amended): for required and preferred scores in [0,100],
the skills sub-score equals the blend required×0.8 + preferred×0.2
truncated (floored) to an integer, i.e. (4·required + preferred) div 5,
and lies in [0,100]. -/
theorem skills_blend_truncates (r p : ℤ)
    (hr0 : 0 ≤ r) (hr1 : r ≤ 100) (hp0 : 0 ≤ p) (hp1 : p ≤ 100) :
    skills_blend r p = (4 * r + p) / 5 ∧
    0 ≤ skills_blend r p ∧ skills_blend r p ≤ 100 := by
  have hr0q : (0 : ℚ) ≤ (r : ℚ) := by exact_mod_cast hr0
  have hp0q : (0 : ℚ) ≤ (p : ℚ) := by exact_mod_cast hp0
  have hnn : (0 : ℚ) ≤ (r : ℚ) * 0.8 + (p : ℚ) * 0.2 := by
    have h1 : (0 : ℚ) ≤ (r : ℚ) * 0.8 := by
      apply mul_nonneg hr0q
      norm_num
    have h2 : (0 : ℚ) ≤ (p : ℚ) * 0.2 := by
      apply mul_nonneg hp0q
      norm_num
    linarith
  have key : ((r : ℚ) * 0.8 + (p : ℚ) * 0.2) = (((4 * r + p : ℤ) : ℚ) / ((5 : ℕ) : ℚ)) := by
    have e8 : (0.8 : ℚ) = 4 / 5 := by norm_num
    have e2 : (0.2 : ℚ) = 1 / 5 := by norm_num
    rw [e8, e2]
    push_cast
    ring
  have hfl : skills_blend r p = (4 * r + p) / 5 := by
    unfold skills_blend pyInt
    rw [if_pos hnn, key, Rat.floor_intCast_div_natCast]
    norm_num
  refine ⟨hfl, ?_, ?_⟩ <;> rw [hfl] <;> omega

/-- Witness for C5 (amended) at required = 80, preferred = 50 (the
spec's end-to-end example: blended 74). -/
theorem skills_blend_truncates_witness :
    (0 : ℤ) ≤ 80 ∧ (80 : ℤ) ≤ 100 ∧ (0 : ℤ) ≤ 50 ∧ (50 : ℤ) ≤ 100 ∧
    skills_blend 80 50 = (4 * 80 + 50) / 5 :=
  ⟨by decide, by decide, by decide, by decide,
   (skills_blend_truncates 80 50 (by decide) (by decide) (by decide) (by decide)).1⟩

/-- Claim C3: the fixed weight table sums to exactly 1, and for all
five aspect scores in [0,100] the aggregated overall score lies in
[0,100]. -/
theorem weights_sum_and_overall_range (kw sk ex ed fm : ℤ)
    (hkw0 : 0 ≤ kw) (hkw1 : kw ≤ 100) (hsk0 : 0 ≤ sk) (hsk1 : sk ≤ 100)
    (hex0 : 0 ≤ ex) (hex1 : ex ≤ 100) (hed0 : 0 ≤ ed) (hed1 : ed ≤ 100)
    (hfm0 : 0 ≤ fm) (hfm1 : fm ≤ 100) :
    weights_keywords + weights_skills + weights_experience +
      weights_education + weights_format = 1 ∧
    0 ≤ overall_of kw sk ex ed fm ∧ overall_of kw sk ex ed fm ≤ 100 := by
  have hkw0q : (0 : ℚ) ≤ (kw : ℚ) := by exact_mod_cast hkw0
  have hkw1q : (kw : ℚ) ≤ 100 := by exact_mod_cast hkw1
  have hsk0q : (0 : ℚ) ≤ (sk : ℚ) := by exact_mod_cast hsk0
  have hsk1q : (sk : ℚ) ≤ 100 := by exact_mod_cast hsk1
  have hex0q : (0 : ℚ) ≤ (ex : ℚ) := by exact_mod_cast hex0
  have hex1q : (ex : ℚ) ≤ 100 := by exact_mod_cast hex1
  have hed0q : (0 : ℚ) ≤ (ed : ℚ) := by exact_mod_cast hed0
  have hed1q : (ed : ℚ) ≤ 100 := by exact_mod_cast hed1
  have hfm0q : (0 : ℚ) ≤ (fm : ℚ) := by exact_mod_cast hfm0
  have hfm1q : (fm : ℚ) ≤ 100 := by exact_mod_cast hfm1
  have hq0 : (0 : ℚ) ≤ (kw : ℚ) * weights_keywords + (sk : ℚ) * weights_skills +
      (ex : ℚ) * weights_experience + (ed : ℚ) * weights_education +
      (fm : ℚ) * weights_format := by
    unfold weights_keywords weights_skills weights_experience weights_education weights_format
    nlinarith
  have hq1 : (kw : ℚ) * weights_keywords + (sk : ℚ) * weights_skills +
      (ex : ℚ) * weights_experience + (ed : ℚ) * weights_education +
      (fm : ℚ) * weights_format ≤ 100 := by
    unfold weights_keywords weights_skills weights_experience weights_education weights_format
    nlinarith
  have hov : overall_of kw sk ex ed fm =
      ⌊(kw : ℚ) * weights_keywords + (sk : ℚ) * weights_skills +
        (ex : ℚ) * weights_experience + (ed : ℚ) * weights_education +
        (fm : ℚ) * weights_format⌋ := by
    unfold overall_of pyInt
    rw [if_pos hq0]
  refine ⟨by norm_num [weights_keywords, weights_skills, weights_experience,
      weights_education, weights_format], ?_, ?_⟩
  · rw [hov]
    exact Int.le_floor.mpr (by exact_mod_cast hq0)
  · rw [hov]
    have h100 : ((100 : ℤ) : ℚ) = (100 : ℚ) := by norm_num
    calc ⌊(kw : ℚ) * weights_keywords + (sk : ℚ) * weights_skills +
          (ex : ℚ) * weights_experience + (ed : ℚ) * weights_education +
          (fm : ℚ) * weights_format⌋ ≤ ⌊(100 : ℚ)⌋ := Int.floor_mono hq1
      _ = 100 := by rw [← h100, Int.floor_intCast]

/-- Witness for C3 at the spec's end-to-end aspect scores
(keyword 80, skills 74, experience 85, education 100, format 90). -/
theorem weights_sum_and_overall_range_witness :
    (0 : ℤ) ≤ 80 ∧ (80 : ℤ) ≤ 100 ∧
    0 ≤ overall_of 80 74 85 100 90 ∧ overall_of 80 74 85 100 90 ≤ 100 := by
  have h := weights_sum_and_overall_range 80 74 85 100 90
    (by decide) (by decide) (by decide) (by decide) (by decide)
    (by decide) (by decide) (by decide) (by decide) (by decide)
  exact ⟨by decide, by decide, h.2.1, h.2.2⟩

/-- Claim C8: if any of the five aspect analyses is absent from the
state, the score aggregation aborts with an error naming the missing
aspect key (the Python dict access raises; the spec calls this
`MissingAspectError`): it never substitutes a default and produces no
composite score. -/
theorem missing_aspect_aborts (s : ATSStateIn)
    (h : s.format_analysis = none ∨ s.keyword_analysis = none ∨
         s.skills_analysis = none ∨ s.experience_analysis = none ∨
         s.education_analysis = none) :
    (∃ key, calculate_score s = Except.error (AggError.missingAspect key)) ∧
    ∀ score : ATSScore, calculate_score s ≠ Except.ok score := by
  obtain ⟨f, k, sk, ex, ed⟩ := s
  cases f <;> cases k <;> cases sk <;> cases ex <;> cases ed <;>
    simp_all [calculate_score]

/-- Witness for C8 at the state with all five aspects absent. -/
theorem missing_aspect_aborts_witness :
    (⟨none, none, none, none, none⟩ : ATSStateIn).format_analysis = none ∧
    ((∃ key, calculate_score ⟨none, none, none, none, none⟩ =
        Except.error (AggError.missingAspect key)) ∧
     ∀ score : ATSScore,
        calculate_score ⟨none, none, none, none, none⟩ ≠ Except.ok score) :=
  ⟨rfl, missing_aspect_aborts ⟨none, none, none, none, none⟩ (Or.inl rfl)⟩

/-- Claim C2: with a resume evaluation present, the quality-check step
routes to the `generate_feedback` (revision) branch iff
overall_quality < quality_threshold and iteration_count <
max_iterations, and otherwise routes to `format_final`. -/
theorem check_quality_routes (e : ResumeEvaluation) (count maxIter : ℕ) (θ : ℤ) :
    (route_target (should_continue_label (some (check_quality
        ⟨some e, some count, some maxIter, some θ⟩))) = some ("generate_feedback")
      ↔ (e.overall_quality < θ ∧ count < maxIter)) ∧
    (¬(e.overall_quality < θ ∧ count < maxIter) →
      route_target (should_continue_label (some (check_quality
        ⟨some e, some count, some maxIter, some θ⟩))) = some ("format_final")) := by
  by_cases h1 : e.overall_quality < θ <;> by_cases h2 : count < maxIter <;>
    simp +decide [check_quality, should_continue_label, route_target, h1, h2]

/-- Witness for C2: at overall_quality 70, threshold 80, iteration 1 of
3, the hypothesis of the second conjunct fails, so the routing goes to
the feedback branch by the first conjunct. -/
theorem check_quality_routes_witness :
    ((70 : ℤ) < 80 ∧ (1 : ℕ) < 3) ∧
    route_target (should_continue_label (some (check_quality
      ⟨some ⟨0, 0, 0, 0, 70, []⟩, some 1, some 3, some 80⟩))) =
      some ("generate_feedback") := by
  have h := check_quality_routes ⟨0, 0, 0, 0, 70, []⟩ 1 3 80
  exact ⟨⟨by decide, by decide⟩, h.1.mpr ⟨by decide, by decide⟩⟩

/-- Claim C10: with no resume evaluation present, the quality-check
step still produces a decision: should_continue is true iff
iteration_count < max_iterations, and the quality threshold is
ignored entirely. -/
theorem check_quality_without_evaluation (count maxIter : ℕ) (t1 t2 : ℤ) :
    (check_quality ⟨none, some count, some maxIter, some t1⟩ = true ↔
      count < maxIter) ∧
    check_quality ⟨none, some count, some maxIter, some t1⟩ =
      check_quality ⟨none, some count, some maxIter, some t2⟩ := by
  constructor
  · simp [check_quality]
  · rfl

/-- Claim C7: the rule-based feedback synthesizer follows the fixed rule
table: a missing-keywords entry listing the first min(3, n) missed
keywords when match_score < 70 (on the concrete input with missed
keywords Docker, Kubernetes, AWS, GCP and match_score 65 the produced
feedback names exactly the first three and GCP appears nowhere), a
missing-required-skills entry truncated to 3 when any required skill is
missing, a years-gap entry when experience falls short, a
required-level entry when education falls short, at most 2 format-issue
entries, and positive remarks at match_score ≥ 80 or required_score
≥ 80. -/
theorem feedback_rule_table (kw : FBKeywordAnalysis) (sk : FBSkillAnalysis)
    (ex : FBExperienceAnalysis) (ed : FBEducationAnalysis) (fm : FBFormatAnalysis) :
    (kw.match_score < 70 →
      keywordFeedbackMsg kw ∈ generate_feedback kw sk ex ed fm ∧
      keywordFeedbackMsg kw =
        "Missing important keywords: " ++ joinComma (kw.missed_keywords.take 3)) ∧
    (sk.missing_required ≠ [] →
      skillsFeedbackMsg sk ∈ generate_feedback kw sk ex ed fm) ∧
    (ex.meets_requirement = false →
      experienceFeedbackMsg ex ∈ generate_feedback kw sk ex ed fm) ∧
    (ed.meets_requirement = false →
      educationFeedbackMsg ed ∈ generate_feedback kw sk ex ed fm) ∧
    (∃ pre post, generate_feedback kw sk ex ed fm =
        pre ++ (fm.format_issues.take 2).map formatFeedbackMsg ++ post ∧
        ((fm.format_issues.take 2).map formatFeedbackMsg).length ≤ 2) ∧
    (kw.match_score ≥ 80 →
      "Strong keyword optimization" ∈ generate_feedback kw sk ex ed fm) ∧
    (sk.required_score ≥ 80 →
      "Excellent skills match" ∈ generate_feedback kw sk ex ed fm) ∧
    (generate_feedback ⟨65, ["Docker", "Kubernetes", "AWS", "GCP"]⟩ ⟨[], 0⟩
        ⟨true, 0, 0⟩ ⟨true, ""⟩ ⟨[]⟩ =
      ["Missing important keywords: Docker, Kubernetes, AWS"]) ∧
    (∀ msg ∈ generate_feedback ⟨65, ["Docker", "Kubernetes", "AWS", "GCP"]⟩ ⟨[], 0⟩
        ⟨true, 0, 0⟩ ⟨true, ""⟩ ⟨[]⟩, containsSub ("GCP").data msg.data = false) := by
  refine ⟨?_, ?_, ?_, ?_, ?_, ?_, ?_, by decide, by decide⟩
  · intro h
    exact ⟨by simp [generate_feedback, h], rfl⟩
  · intro h
    cases hsk : sk.missing_required with
    | nil => exact absurd hsk h
    | cons a l => simp [generate_feedback, hsk]
  · intro h
    simp [generate_feedback, h]
  · intro h
    simp [generate_feedback, h]
  · refine ⟨(if kw.match_score < 70 then [keywordFeedbackMsg kw] else []) ++
      ((if sk.missing_required.isEmpty then [] else [skillsFeedbackMsg sk]) ++
       ((if ex.meets_requirement then [] else [experienceFeedbackMsg ex]) ++
        (if ed.meets_requirement then [] else [educationFeedbackMsg ed]))),
      (if kw.match_score ≥ 80 then ["Strong keyword optimization"] else []) ++
        (if sk.required_score ≥ 80 then ["Excellent skills match"] else []), ?_, ?_⟩
    · simp [generate_feedback, List.append_assoc]
    · rw [List.length_map, List.length_take]
      exact min_le_left _ _
  · intro h
    simp [generate_feedback, h]
  · intro h
    simp [generate_feedback, h]

/-- Witness for C7 at the concrete keyword analysis of the claim. -/
theorem feedback_rule_table_witness :
    ((65 : ℤ) < 70) ∧
    keywordFeedbackMsg ⟨65, ["Docker", "Kubernetes", "AWS", "GCP"]⟩ ∈
      generate_feedback ⟨65, ["Docker", "Kubernetes", "AWS", "GCP"]⟩ ⟨[], 0⟩
        ⟨true, 0, 0⟩ ⟨true, ""⟩ ⟨[]⟩ := by
  have h := feedback_rule_table ⟨65, ["Docker", "Kubernetes", "AWS", "GCP"]⟩ ⟨[], 0⟩
    ⟨true, 0, 0⟩ ⟨true, ""⟩ ⟨[]⟩
  exact ⟨by decide, (h.1 (by decide)).1⟩

/-- While no header has been seen, non-header lines are skipped by the
parser loop. -/
theorem parseLoop_skip_leading (lines : List String) (content : List String) :
    parseLoop none content lines =
      parseLoop none content (lines.dropWhile (fun l => !is_header_line l)) := by
  induction lines with
  | nil => rfl
  | cons l rest ih =>
    cases hl : is_header_line l with
    | true => simp [List.dropWhile_cons, hl]
    | false =>
      rw [List.dropWhile_cons]
      simp only [hl]
      rw [show parseLoop none content (l :: rest) = parseLoop none content rest by
        simp [parseLoop, hl]]
      simpa using ih

/-- Every section emitted by the parser loop is named either by the
pending section name or by the trimmed text of a header line among the
remaining lines. -/
theorem parseLoop_names (lines : List String) :
    ∀ (cs : Option String) (content : List String) (sec : ResumeSection),
      sec ∈ parseLoop cs content lines →
      (∃ s, cs = some s ∧ sec.section_name = s) ∨
      (∃ line ∈ lines, is_header_line line = true ∧ sec.section_name = trimStr line) := by
  induction lines with
  | nil =>
    intro cs content sec h
    cases cs with
    | none => simp [parseLoop] at h
    | some s =>
      by_cases hc : content.isEmpty <;> simp [parseLoop, hc] at h
      exact Or.inl ⟨s, rfl, by rw [h]⟩
  | cons line rest ih =>
    intro cs content sec h
    cases hl : is_header_line line with
    | false =>
      cases cs with
      | none =>
        rw [show parseLoop none content (line :: rest) = parseLoop none content rest by
          simp [parseLoop, hl]] at h
        rcases ih none content sec h with ⟨s, hs, _⟩ | ⟨l2, hl2, h1, h2⟩
        · exact absurd hs (by simp)
        · exact Or.inr ⟨l2, List.mem_cons_of_mem _ hl2, h1, h2⟩
      | some s =>
        rw [show parseLoop (some s) content (line :: rest) =
            parseLoop (some s) (content ++ [line]) rest by simp [parseLoop, hl]] at h
        rcases ih (some s) (content ++ [line]) sec h with ⟨s2, hs2, hn⟩ | ⟨l2, hl2, h1, h2⟩
        · exact Or.inl ⟨s2, hs2, hn⟩
        · exact Or.inr ⟨l2, List.mem_cons_of_mem _ hl2, h1, h2⟩
    | true =>
      cases cs with
      | none =>
        rw [show parseLoop none content (line :: rest) =
            parseLoop (some (trimStr line)) [] rest by simp [parseLoop, hl]] at h
        rcases ih (some (trimStr line)) [] sec h with ⟨s2, hs2, hn⟩ | ⟨l2, hl2, h1, h2⟩
        · refine Or.inr ⟨line, List.mem_cons_self _ _, hl, ?_⟩
          rw [hn]
          injection hs2 with he
          exact he.symm
        · exact Or.inr ⟨l2, List.mem_cons_of_mem _ hl2, h1, h2⟩
      | some s =>
        rw [show parseLoop (some s) content (line :: rest) =
            ⟨s, joinNl content, []⟩ :: parseLoop (some (trimStr line)) [] rest by
          simp [parseLoop, hl]] at h
        rcases List.mem_cons.mp h with hhd | htl
        · exact Or.inl ⟨s, rfl, by rw [hhd]⟩
        · rcases ih (some (trimStr line)) [] sec htl with ⟨s2, hs2, hn⟩ | ⟨l2, hl2, h1, h2⟩
          · refine Or.inr ⟨line, List.mem_cons_self _ _, hl, ?_⟩
            rw [hn]
            injection hs2 with he
            exact he.symm
          · exact Or.inr ⟨l2, List.mem_cons_of_mem _ hl2, h1, h2⟩

/-- Claim C6: the section parser discards all text before the first
recognized header line and emits no unnamed section; a header line
immediately followed by another header line yields an empty-content
section; a trailing header with no following content is silently
dropped; and the two concrete inputs of the claim parse exactly as
stated. -/
theorem parse_sections_edge_cases :
    (∀ text : String,
      parse_resume_sections text =
        parseLoop none [] ((linesOf text).dropWhile (fun l => !is_header_line l))) ∧
    (∀ text : String, ∀ sec ∈ parse_resume_sections text,
      ∃ line ∈ linesOf text, is_header_line line = true ∧
        sec.section_name = trimStr line) ∧
    (∀ (l1 l2 : String) (rest : List String),
      is_header_line l1 = true → is_header_line l2 = true →
      parseLoop none [] (l1 :: l2 :: rest) =
        ⟨trimStr l1, "", []⟩ :: parseLoop (some (trimStr l2)) [] rest) ∧
    (∀ (cs : Option String) (content : List String) (l : String),
      is_header_line l = true →
      parseLoop cs content [l] = cs.elim [] (fun s => [⟨s, joinNl content, []⟩])) ∧
    parse_resume_sections ("EXPERIENCE\nDid things\nEDUCATION\nBS CS") =
      [⟨"EXPERIENCE", "Did things", []⟩, ⟨"EDUCATION", "BS CS", []⟩] ∧
    parse_resume_sections ("intro text\nSKILLS\nPython") =
      [⟨"SKILLS", "Python", []⟩] := by
  refine ⟨?_, ?_, ?_, ?_, by decide, by decide⟩
  · intro text
    exact parseLoop_skip_leading (linesOf text) []
  · intro text sec h
    rcases parseLoop_names (linesOf text) none [] sec h with ⟨s, hs, _⟩ | hr
    · exact absurd hs (by simp)
    · exact hr
  · intro l1 l2 rest h1 h2
    simp [parseLoop, h1, h2, joinNl]
  · intro cs content l hl
    cases cs <;> simp [parseLoop, hl]

/-- Witness for C6: a trailing header line ("SKILLS") flushes the
pending section and is itself dropped. -/
theorem parse_sections_edge_cases_witness :
    is_header_line ("SKILLS") = true ∧
    parseLoop (some ("EXPERIENCE")) ["Did things"] ["SKILLS"] =
      (Option.some ("EXPERIENCE")).elim []
        (fun s => [⟨s, joinNl ["Did things"], []⟩]) :=
  ⟨by decide,
   parse_sections_edge_cases.2.2.2.1 (some ("EXPERIENCE")) ["Did things"]
     ("SKILLS") (by decide)⟩

/-- Once the loop has reached `Done` it stays there. -/
theorem loopStep_done (quals : ℕ → ResumeEvaluation) (maxIter : ℕ) (qThresh : ℤ)
    (n : ℕ) (s : LoopState) (h : s.phase = Phase.done) :
    (loopStep quals maxIter qThresh)^[n] s = s := by
  induction n with
  | zero => rfl
  | succ n ih =>
    rw [Function.iterate_succ_apply]
    rw [show loopStep quals maxIter qThresh s = s by
      obtain ⟨ph, c, re, ev, rv⟩ := s
      change ph = Phase.done at h
      subst h
      rfl]
    exact ih

/-- When the quality check fails to continue, three steps take an
`Evaluating` state to `Done`, adding one evaluation pass and no
revision pass. -/
theorem loop_stop_three (quals : ℕ → ResumeEvaluation) (maxIter : ℕ) (qThresh : ℤ)
    (c ev rv : ℕ) (re : Option ResumeEvaluation)
    (hcq : check_quality ⟨some (quals ev), some c, some maxIter, some qThresh⟩ = false) :
    (loopStep quals maxIter qThresh)^[3] ⟨Phase.evaluating, c, re, ev, rv⟩ =
      ⟨Phase.done, c, some (quals ev), ev + 1, rv⟩ := by
  have hit : (loopStep quals maxIter qThresh)^[3] (⟨Phase.evaluating, c, re, ev, rv⟩ : LoopState) =
      loopStep quals maxIter qThresh (loopStep quals maxIter qThresh
        (loopStep quals maxIter qThresh ⟨Phase.evaluating, c, re, ev, rv⟩)) := rfl
  rw [hit]
  rw [show loopStep quals maxIter qThresh ⟨Phase.evaluating, c, re, ev, rv⟩ =
      ⟨Phase.deciding, c, some (quals ev), ev + 1, rv⟩ from rfl]
  rw [show loopStep quals maxIter qThresh ⟨Phase.deciding, c, some (quals ev), ev + 1, rv⟩ =
      ⟨decide_next_phase (check_quality ⟨some (quals ev), some c, some maxIter, some qThresh⟩),
        c, some (quals ev), ev + 1, rv⟩ from rfl]
  rw [hcq]
  rw [show decide_next_phase false = Phase.finalizing from rfl]
  rfl

/-- When the quality check continues, three steps take an `Evaluating`
state back to `Evaluating`, adding one evaluation pass, one revision
pass, and one to iteration_count. -/
theorem loop_continue_three (quals : ℕ → ResumeEvaluation) (maxIter : ℕ) (qThresh : ℤ)
    (c ev rv : ℕ) (re : Option ResumeEvaluation)
    (hcq : check_quality ⟨some (quals ev), some c, some maxIter, some qThresh⟩ = true) :
    (loopStep quals maxIter qThresh)^[3] ⟨Phase.evaluating, c, re, ev, rv⟩ =
      ⟨Phase.evaluating, c + 1, some (quals ev), ev + 1, rv + 1⟩ := by
  have hit : (loopStep quals maxIter qThresh)^[3] (⟨Phase.evaluating, c, re, ev, rv⟩ : LoopState) =
      loopStep quals maxIter qThresh (loopStep quals maxIter qThresh
        (loopStep quals maxIter qThresh ⟨Phase.evaluating, c, re, ev, rv⟩)) := rfl
  rw [hit]
  rw [show loopStep quals maxIter qThresh ⟨Phase.evaluating, c, re, ev, rv⟩ =
      ⟨Phase.deciding, c, some (quals ev), ev + 1, rv⟩ from rfl]
  rw [show loopStep quals maxIter qThresh ⟨Phase.deciding, c, some (quals ev), ev + 1, rv⟩ =
      ⟨decide_next_phase (check_quality ⟨some (quals ev), some c, some maxIter, some qThresh⟩),
        c, some (quals ev), ev + 1, rv⟩ from rfl]
  rw [hcq]
  rw [show decide_next_phase true = Phase.revising from rfl]
  rfl

/-- From any `Evaluating` state with at most `d` iteration budget left,
3d + 3 steps reach `Done`, with at most `d` further revision passes and
at most `d + 1` further evaluation passes, for any sequence of
evaluations. -/
theorem loop_run_from_evaluating (quals : ℕ → ResumeEvaluation) (maxIter : ℕ) (qThresh : ℤ) :
    ∀ (d : ℕ) (s : LoopState), s.phase = Phase.evaluating →
      maxIter - s.iteration_count ≤ d →
      ((loopStep quals maxIter qThresh)^[3 * d + 3] s).phase = Phase.done ∧
      ((loopStep quals maxIter qThresh)^[3 * d + 3] s).revs ≤ s.revs + d ∧
      ((loopStep quals maxIter qThresh)^[3 * d + 3] s).evals ≤ s.evals + d + 1 := by
  intro d
  induction d with
  | zero =>
    intro s hph hd
    obtain ⟨ph, c, re, ev, rv⟩ := s
    change ph = Phase.evaluating at hph
    subst hph
    have hc : ¬ c < maxIter := by
      change maxIter - c ≤ 0 at hd
      omega
    have hcq : check_quality ⟨some (quals ev), some c, some maxIter, some qThresh⟩ = false := by
      simp [check_quality, hc]
    have h3 := loop_stop_three quals maxIter qThresh c ev rv re hcq
    rw [show 3 * 0 + 3 = 3 from rfl, h3]
    refine ⟨rfl, ?_, ?_⟩ <;> dsimp only <;> omega
  | succ d ihd =>
    intro s hph hd
    obtain ⟨ph, c, re, ev, rv⟩ := s
    change ph = Phase.evaluating at hph
    subst hph
    change maxIter - c ≤ d + 1 at hd
    have hsplit : 3 * (d + 1) + 3 = (3 * d + 3) + 3 := by omega
    by_cases hcq : check_quality ⟨some (quals ev), some c, some maxIter, some qThresh⟩ = true
    · have hc : c < maxIter := by
        have := hcq
        simp [check_quality] at this
        exact this.2
      have h3 := loop_continue_three quals maxIter qThresh c ev rv re hcq
      rw [hsplit, Function.iterate_add_apply, h3]
      have hrec := ihd ⟨Phase.evaluating, c + 1, some (quals ev), ev + 1, rv + 1⟩ rfl
        (by change maxIter - (c + 1) ≤ d; omega)
      refine ⟨hrec.1, ?_, ?_⟩
      · have := hrec.2.1
        dsimp only at this ⊢
        omega
      · have := hrec.2.2
        dsimp only at this ⊢
        omega
    · have hcq' : check_quality ⟨some (quals ev), some c, some maxIter, some qThresh⟩ = false := by
        cases hb : check_quality ⟨some (quals ev), some c, some maxIter, some qThresh⟩ with
        | true => exact absurd hb hcq
        | false => rfl
      have h3 := loop_stop_three quals maxIter qThresh c ev rv re hcq'
      rw [hsplit, Function.iterate_add_apply, h3]
      rw [loopStep_done quals maxIter qThresh (3 * d + 3)
        ⟨Phase.done, c, some (quals ev), ev + 1, rv⟩ rfl]
      refine ⟨rfl, ?_, ?_⟩ <;> dsimp only <;> omega

/-- Claim C1: starting from `Drafting` with iteration_count = 0, and
for any sequence of quality evaluations, each revision pass increments
iteration_count by exactly 1, the loop reaches `Done` (within
3·max_iterations + 4 transitions) having executed at most
max_iterations revision passes and at most max_iterations + 1
evaluation passes. -/
theorem revision_loop_bounds (quals : ℕ → ResumeEvaluation) (maxIter : ℕ) (qThresh : ℤ) :
    initLoopState.iteration_count = 0 ∧
    (∀ s : LoopState, s.phase = Phase.revising →
      (loopStep quals maxIter qThresh s).iteration_count = s.iteration_count + 1 ∧
      (loopStep quals maxIter qThresh s).revs = s.revs + 1) ∧
    ((loopStep quals maxIter qThresh)^[3 * maxIter + 4] initLoopState).phase = Phase.done ∧
    ((loopStep quals maxIter qThresh)^[3 * maxIter + 4] initLoopState).revs ≤ maxIter ∧
    ((loopStep quals maxIter qThresh)^[3 * maxIter + 4] initLoopState).evals ≤ maxIter + 1 := by
  have hsplit : 3 * maxIter + 4 = (3 * maxIter + 3) + 1 := by omega
  have h1 : loopStep quals maxIter qThresh initLoopState =
      ⟨Phase.evaluating, 1, none, 0, 0⟩ := rfl
  have hrun := loop_run_from_evaluating quals maxIter qThresh maxIter
    ⟨Phase.evaluating, 1, none, 0, 0⟩ rfl (by change maxIter - 1 ≤ maxIter; omega)
  have hfin : (loopStep quals maxIter qThresh)^[3 * maxIter + 4] initLoopState =
      (loopStep quals maxIter qThresh)^[3 * maxIter + 3]
        ⟨Phase.evaluating, 1, none, 0, 0⟩ := by
    rw [hsplit, Function.iterate_add_apply, Function.iterate_one, h1]
  refine ⟨rfl, ?_, ?_, ?_, ?_⟩
  · intro s hph
    obtain ⟨ph, c, re, ev, rv⟩ := s
    change ph = Phase.revising at hph
    subst hph
    exact ⟨rfl, rfl⟩
  · rw [hfin]
    exact hrun.1
  · rw [hfin]
    have := hrun.2.1
    dsimp only at this ⊢
    omega
  · rw [hfin]
    have := hrun.2.2
    dsimp only at this ⊢
    omega

/-- Witness for C1 with the default configuration (max_iterations 3,
quality_threshold 80) and a constant evaluation sequence. -/
theorem revision_loop_bounds_witness :
    ((loopStep (fun _ => ⟨0, 0, 0, 0, 0, []⟩) 3 80)^[13] initLoopState).phase = Phase.done ∧
    ((loopStep (fun _ => ⟨0, 0, 0, 0, 0, []⟩) 3 80)^[13] initLoopState).revs ≤ 3 ∧
    (loopStep (fun _ => ⟨0, 0, 0, 0, 0, []⟩) 3 80
      ⟨Phase.revising, 1, none, 1, 0⟩).iteration_count = 1 + 1 := by
  have h := revision_loop_bounds (fun _ => ⟨0, 0, 0, 0, 0, []⟩) 3 80
  exact ⟨h.2.2.1, h.2.2.2.1, (h.2.1 ⟨Phase.revising, 1, none, 1, 0⟩ rfl).1⟩
